import Mathlib

set_option maxRecDepth 20000
set_option maxHeartbeats 1000000

namespace HabiticaMcp

/-!
Shallow embedding of the habitica-mcp-server repository
(src/i18n.js and src/index.js).

JavaScript values that flow through the program (axios response bodies,
tool arguments, parsed JSON) are modelled by `Json`; the JavaScript
`undefined` is modelled by `Option Json` with `none` for `undefined`.
JSON numbers are modelled as exact decimals `m / 10 ^ e` (the source only
manipulates decimal literals such as 0.1, 1.5 and integer counts; no
floating-point rounding behaviour is relied upon by the code).
-/

/-- From src/i18n.js: `t(en)` returns the English string unchanged. -/
def t (en : String) : String := en

/-- From src/i18n.js: `setLanguage` stores `(lang || '').toLowerCase()`;
this function computes the stored value. -/
def setLanguage (lang : String) : String := lang.toLower

/-- A JavaScript/JSON value (without `undefined`). -/
inductive Json where
  | null
  | bool (b : Bool)
  | num (m : Int) (e : Nat)
  | str (s : String)
  | arr (elems : List Json)
  | obj (fields : List (String × Json))

/-- A JavaScript value including `undefined` (`none`). -/
abbrev JsVal := Option Json

/-- JavaScript truthiness: `undefined`, `null`, `false`, `0` and `""`
are falsy, everything else is truthy. -/
def truthy : JsVal → Bool
  | none => false
  | some .null => false
  | some (.bool b) => b
  | some (.num m _) => m != 0
  | some (.str s) => s != ""
  | some (.arr _) => true
  | some (.obj _) => true

/-- The JavaScript `a || b` operator. -/
def jsOr (a b : JsVal) : JsVal := if truthy a then a else b

/-- Property lookup in an object's field list (first match; the mocked
bodies constructed by the program's callers have unique keys). -/
def lookupField (fields : List (String × Json)) (k : String) : JsVal :=
  (fields.find? (fun p => p.1 == k)).map (fun p => p.2)

/-- Optional-chaining property access `v?.k`: never throws, yields
`undefined` on `undefined`/`null`/non-objects; arrays and strings expose
their `length`. -/
def jsOptGet (v : JsVal) (k : String) : JsVal :=
  match v with
  | none => none
  | some .null => none
  | some (.obj fields) => lookupField fields k
  | some (.arr elems) => if k == "length" then some (.num (elems.length : Int) 0) else none
  | some (.str s) => if k == "length" then some (.num (s.length : Int) 0) else none
  | some (.bool _) => none
  | some (.num _ _) => none

/-- An error value thrown inside a handler: either an axios HTTP error
(carrying `error.response`, whose `data` field is the remote response
body) or an ordinary runtime error such as a TypeError. `message` models
`error.message`. -/
structure JsError where
  response : JsVal
  message : String

/-- Plain property access `v.k`: throws a TypeError on `undefined` and
`null`, otherwise behaves like `jsOptGet`. -/
def jsGet (v : JsVal) (k : String) : Except JsError JsVal :=
  match v with
  | none => .error ⟨none, "Cannot read properties of undefined (reading " ++ k ++ ")"⟩
  | some .null => .error ⟨none, "Cannot read properties of null (reading " ++ k ++ ")"⟩
  | some j => .ok (jsOptGet (some j) k)

/-- Decimal rendering of `m / 10 ^ e`, matching how JavaScript prints the
decimal literals appearing in the source (`0.1`, `1.5`, integers). -/
def numToString (m : Int) (e : Nat) : String :=
  if e = 0 then toString m
  else
    let sign := if m < 0 then "-" else ""
    let s := toString m.natAbs
    let s := if s.length ≤ e then String.mk (List.replicate (e + 1 - s.length) '0') ++ s else s
    let intLen := s.length - e
    sign ++ String.mk (s.data.take intLen) ++ "." ++ String.mk (s.data.drop intLen)

mutual

/-- The JavaScript `String(v)` coercion used by template literals. -/
def jsDisplayJson : Json → String
  | .null => "null"
  | .bool b => if b then "true" else "false"
  | .num m e => numToString m e
  | .str s => s
  | .arr elems => jsDisplayElems elems
  | .obj _ => "[object Object]"

/-- `Array.prototype.toString`: elements joined with `,`; `null` elements
render as the empty string. -/
def jsDisplayElems : List Json → String
  | [] => ""
  | [x] => (match x with | .null => "" | _ => jsDisplayJson x)
  | x :: xs => (match x with | .null => "" | _ => jsDisplayJson x) ++ "," ++ jsDisplayElems xs

end

/-- `String(v)` on a possibly-`undefined` value, as used inside template
literals in the source. -/
def jsDisplay : JsVal → String
  | none => "undefined"
  | some j => jsDisplayJson j

/-- JSON string-literal escaping as performed by `JSON.stringify`. -/
def escapeJsonChar (c : Char) : String :=
  if c = '"' then "\\\""
  else if c = '\\' then "\\\\"
  else if c = '\n' then "\\n"
  else if c = '\r' then "\\r"
  else if c = '\t' then "\\t"
  else if c = '\x08' then "\\b"
  else if c = '\x0c' then "\\f"
  else if c.toNat < 32 then
    let d1 := c.toNat / 16
    let d2 := c.toNat % 16
    let hex := fun (n : Nat) => if n < 10 then Char.ofNat (48 + n) else Char.ofNat (87 + n)
    "\\u00" ++ String.mk [hex d1, hex d2]
  else String.mk [c]

/-- A JSON string literal, quoted and escaped as by `JSON.stringify`. -/
def quoteJsonString (s : String) : String :=
  "\"" ++ String.join (s.data.map escapeJsonChar) ++ "\""

/-- Indentation produced by `JSON.stringify(v, null, 2)` at nesting
depth `i`. -/
def jsonIndent (i : Nat) : String := String.mk (List.replicate (2 * i) ' ')

mutual

/-- `JSON.stringify(v, null, 2)` at nesting depth `i`. -/
def jsonStringifyAt (i : Nat) : Json → String
  | .null => "null"
  | .bool b => if b then "true" else "false"
  | .num m e => numToString m e
  | .str s => quoteJsonString s
  | .arr elems =>
      match elems with
      | [] => "[]"
      | _ => "[\n" ++ jsonStringifyElems (i + 1) elems ++ "\n" ++ jsonIndent i ++ "]"
  | .obj fields =>
      match fields with
      | [] => "\x7b\x7d"
      | _ => "\x7b\n" ++ jsonStringifyFields (i + 1) fields ++ "\n" ++ jsonIndent i ++ "\x7d"

/-- Array elements of `JSON.stringify(v, null, 2)`, one per line. -/
def jsonStringifyElems (i : Nat) : List Json → String
  | [] => ""
  | [x] => jsonIndent i ++ jsonStringifyAt i x
  | x :: xs => jsonIndent i ++ jsonStringifyAt i x ++ ",\n" ++ jsonStringifyElems i xs

/-- Object fields of `JSON.stringify(v, null, 2)`, one per line. -/
def jsonStringifyFields (i : Nat) : List (String × Json) → String
  | [] => ""
  | [(k, v)] => jsonIndent i ++ quoteJsonString k ++ ": " ++ jsonStringifyAt i v
  | (k, v) :: xs =>
      jsonIndent i ++ quoteJsonString k ++ ": " ++ jsonStringifyAt i v ++ ",\n"
        ++ jsonStringifyFields i xs

end

/-- `JSON.stringify(v, null, 2)` as called by the handlers. -/
def jsonStringify (v : Json) : String := jsonStringifyAt 0 v

/-- `JSON.stringify` applied to a possibly-`undefined` value:
`JSON.stringify(undefined)` is `undefined`, not a string. -/
def jsonStringifyVal : JsVal → JsVal
  | none => none
  | some v => some (.str (jsonStringify v))

/-- The MCP error codes used by src/index.js (`ErrorCode.MethodNotFound`
and `ErrorCode.InternalError` from the SDK). -/
inductive ErrorCode where
  | methodNotFound
  | internalError
deriving DecidableEq

/-- The SDK's `McpError`: a code plus a human-readable message. -/
structure McpError where
  code : ErrorCode
  message : String
deriving DecidableEq

/-- One `{type: 'text', text: ...}` content block of a tool result.
`text` is a raw JavaScript value because `JSON.stringify` can yield
`undefined`. -/
structure TextContent where
  type : String
  text : JsVal

/-- The value returned by every handler: `{content: [...]}`. -/
structure ToolCallResult where
  content : List TextContent

/-- An HTTP method of the axios client. -/
inductive Method where
  | get
  | post
  | put
  | delete

/-- One outbound request of the pre-configured axios client: method,
path (relative to the fixed base URL) and optional JSON body. -/
structure HttpRequest where
  method : Method
  path : String
  body : JsVal

/-- The remote side as seen through `habiticaClient`: every request
either yields the parsed response body (`response.data`) or throws. -/
structure HttpClient where
  send : HttpRequest → Except JsError Json

/-- `habiticaClient.get(path)`. -/
def HttpClient.getReq (c : HttpClient) (path : String) : Except JsError Json :=
  c.send ⟨.get, path, none⟩

/-- `habiticaClient.post(path)` / `habiticaClient.post(path, body)`. -/
def HttpClient.postReq (c : HttpClient) (path : String) (body : JsVal) : Except JsError Json :=
  c.send ⟨.post, path, body⟩

/-- `habiticaClient.put(path, body)`. -/
def HttpClient.putReq (c : HttpClient) (path : String) (body : JsVal) : Except JsError Json :=
  c.send ⟨.put, path, body⟩

/-- `habiticaClient.delete(path)`. -/
def HttpClient.deleteReq (c : HttpClient) (path : String) : Except JsError Json :=
  c.send ⟨.delete, path, none⟩

/-- `Array.prototype.map` over a JSON array with a body that can throw
(property accesses inside the callback may raise a TypeError). -/
def mapJs (f : Json → Except JsError String) : List Json → Except JsError (List String)
  | [] => .ok []
  | x :: xs => do
      let y ← f x
      let ys ← mapJs f xs
      .ok (y :: ys)

/-- `getUserProfile` (src/index.js:661): GET /user, pretty-print
`response.data.data`. -/
def getUserProfile (client : HttpClient) : Except JsError ToolCallResult := do
  let body ← client.getReq "/user"
  let user ← jsGet (some body) "data"
  .ok ⟨[⟨"text", jsonStringifyVal user⟩]⟩

/-- `getTasks` (src/index.js:675): GET /tasks/user with an optional
`type` query, pretty-print the whole response body. -/
def getTasks (client : HttpClient) (type : JsVal) : Except JsError ToolCallResult := do
  let endpoint := if truthy type then "/tasks/user?type=" ++ jsDisplay type else "/tasks/user"
  let body ← client.getReq endpoint
  .ok ⟨[⟨"text", some (.str (jsonStringify body))⟩]⟩

/-- `createTask` (src/index.js:689): POST /tasks/user with the raw
argument object, confirm with the created task's text and id. -/
def createTask (client : HttpClient) (taskData : JsVal) : Except JsError ToolCallResult := do
  let body ← client.postReq "/tasks/user" taskData
  let task ← jsGet (some body) "data"
  let taskText ← jsGet task "text"
  let taskId ← jsGet task "id"
  .ok ⟨[⟨"text", some (.str ("Successfully created task: " ++ jsDisplay taskText
    ++ " (ID: " ++ jsDisplay taskId ++ ")"))⟩]⟩

/-- `scoreTask` (src/index.js:703): POST /tasks/{taskId}/score/{direction}
with `direction` defaulting to `'up'` when the argument is `undefined`;
build the confirmation message from the truthy response fields. -/
def scoreTask (client : HttpClient) (taskId : JsVal) (directionArg : JsVal) :
    Except JsError ToolCallResult := do
  let direction : JsVal := match directionArg with
    | none => some (.str "up")
    | some v => some v
  let body ← client.postReq ("/tasks/" ++ jsDisplay taskId ++ "/score/" ++ jsDisplay direction) none
  let result ← jsGet (some body) "data"
  let expV ← jsGet result "exp"
  let gpV ← jsGet result "gp"
  let lvlV ← jsGet result "lvl"
  let message := "Task completed! "
  let message := if truthy expV then message ++ "Gained " ++ jsDisplay expV ++ " XP " else message
  let message := if truthy gpV then message ++ "Gained " ++ jsDisplay gpV ++ " gold " else message
  let message := if truthy lvlV then message ++ "Leveled up to " ++ jsDisplay lvlV ++ "! " else message
  .ok ⟨[⟨"text", some (.str message)⟩]⟩

/-- `updateTask` (src/index.js:722): PUT /tasks/{taskId} with the raw
argument object, confirm with the updated task's text. -/
def updateTask (client : HttpClient) (taskId : JsVal) (updates : JsVal) :
    Except JsError ToolCallResult := do
  let body ← client.putReq ("/tasks/" ++ jsDisplay taskId) updates
  let task ← jsGet (some body) "data"
  let taskText ← jsGet task "text"
  .ok ⟨[⟨"text", some (.str ("Successfully updated task: " ++ jsDisplay taskText))⟩]⟩

/-- `deleteTask` (src/index.js:736): DELETE /tasks/{taskId}. -/
def deleteTask (client : HttpClient) (taskId : JsVal) : Except JsError ToolCallResult := do
  let _ ← client.deleteReq ("/tasks/" ++ jsDisplay taskId)
  .ok ⟨[⟨"text", some (.str ("Successfully deleted task (ID: " ++ jsDisplay taskId ++ ")"))⟩]⟩

/-- `getStats` (src/index.js:749): GET /user, pretty-print
`response.data.data.stats`. -/
def getStats (client : HttpClient) : Except JsError ToolCallResult := do
  let body ← client.getReq "/user"
  let d ← jsGet (some body) "data"
  let stats ← jsGet d "stats"
  .ok ⟨[⟨"text", jsonStringifyVal stats⟩]⟩

/-- `buyReward` (src/index.js:762): POST /user/buy/{key}, confirm with
the remaining gold. -/
def buyReward (client : HttpClient) (key : JsVal) : Except JsError ToolCallResult := do
  let body ← client.postReq ("/user/buy/" ++ jsDisplay key) none
  let result ← jsGet (some body) "data"
  let gp ← jsGet result "gp"
  .ok ⟨[⟨"text", some (.str ("Successfully bought reward! Remaining gold: " ++ jsDisplay gp))⟩]⟩

/-- `getInventory` (src/index.js:776): GET /user, pretty-print
`response.data.data.items`. -/
def getInventory (client : HttpClient) : Except JsError ToolCallResult := do
  let body ← client.getReq "/user"
  let d ← jsGet (some body) "data"
  let items ← jsGet d "items"
  .ok ⟨[⟨"text", jsonStringifyVal items⟩]⟩

/-- `castSpell` (src/index.js:789): POST /user/class/cast/{spellId} with
an optional targetId query. -/
def castSpell (client : HttpClient) (spellId : JsVal) (targetId : JsVal) :
    Except JsError ToolCallResult := do
  let endpoint := if truthy targetId
    then "/user/class/cast/" ++ jsDisplay spellId ++ "?targetId=" ++ jsDisplay targetId
    else "/user/class/cast/" ++ jsDisplay spellId
  let _ ← client.postReq endpoint none
  .ok ⟨[⟨"text", some (.str ("Successfully cast spell: " ++ jsDisplay spellId))⟩]⟩

/-- `getTags` (src/index.js:803): GET /tags, pretty-print the whole
response body. -/
def getTags (client : HttpClient) : Except JsError ToolCallResult := do
  let body ← client.getReq "/tags"
  .ok ⟨[⟨"text", some (.str (jsonStringify body))⟩]⟩

/-- Serialized form of a JavaScript object literal with one possibly
`undefined` shorthand field: axios JSON-serialization drops `undefined`
fields. -/
def objField (k : String) : JsVal → List (String × Json)
  | none => []
  | some v => [(k, v)]

/-- `createTag` (src/index.js:816): POST /tags with `{ name }`. -/
def createTag (client : HttpClient) (name : JsVal) : Except JsError ToolCallResult := do
  let body ← client.postReq "/tags" (some (.obj (objField "name" name)))
  let tag ← jsGet (some body) "data"
  let tagName ← jsGet tag "name"
  let tagId ← jsGet tag "id"
  .ok ⟨[⟨"text", some (.str ("Successfully created tag: " ++ jsDisplay tagName
    ++ " (ID: " ++ jsDisplay tagId ++ ")"))⟩]⟩

/-- `getPets` (src/index.js:830): GET /user, pretty-print
`response.data.data.items.pets`. -/
def getPets (client : HttpClient) : Except JsError ToolCallResult := do
  let body ← client.getReq "/user"
  let d ← jsGet (some body) "data"
  let items ← jsGet d "items"
  let pets ← jsGet items "pets"
  .ok ⟨[⟨"text", jsonStringifyVal pets⟩]⟩

/-- `feedPet` (src/index.js:843): POST /user/feed/{pet}/{food}, append
the remote message when truthy. -/
def feedPet (client : HttpClient) (pet : JsVal) (food : JsVal) :
    Except JsError ToolCallResult := do
  let body ← client.postReq ("/user/feed/" ++ jsDisplay pet ++ "/" ++ jsDisplay food) none
  let result ← jsGet (some body) "data"
  let resMsg ← jsGet result "message"
  let message := "Successfully fed pet " ++ jsDisplay pet ++ "! "
  let message := if truthy resMsg then message ++ jsDisplay resMsg else message
  .ok ⟨[⟨"text", some (.str message)⟩]⟩

/-- `hatchPet` (src/index.js:862): POST /user/hatch/{egg}/{potion};
`response.data.data` is read (and can throw) but otherwise unused. -/
def hatchPet (client : HttpClient) (egg : JsVal) (hatchingPotion : JsVal) :
    Except JsError ToolCallResult := do
  let body ← client.postReq ("/user/hatch/" ++ jsDisplay egg ++ "/" ++ jsDisplay hatchingPotion) none
  let _ ← jsGet (some body) "data"
  .ok ⟨[⟨"text", some (.str ("Successfully hatched pet! Got " ++ jsDisplay egg ++ "-"
    ++ jsDisplay hatchingPotion))⟩]⟩

/-- `getMounts` (src/index.js:876): GET /user, pretty-print
`response.data.data.items.mounts`. -/
def getMounts (client : HttpClient) : Except JsError ToolCallResult := do
  let body ← client.getReq "/user"
  let d ← jsGet (some body) "data"
  let items ← jsGet d "items"
  let mounts ← jsGet items "mounts"
  .ok ⟨[⟨"text", jsonStringifyVal mounts⟩]⟩

/-- `equipItem` (src/index.js:889): POST /user/equip/{type}/{key}. -/
def equipItem (client : HttpClient) (type : JsVal) (key : JsVal) :
    Except JsError ToolCallResult := do
  let _ ← client.postReq ("/user/equip/" ++ jsDisplay type ++ "/" ++ jsDisplay key) none
  .ok ⟨[⟨"text", some (.str ("Successfully equipped " ++ jsDisplay type ++ ": "
    ++ jsDisplay key))⟩]⟩

/-- `getNotifications` (src/index.js:902): GET /notifications,
pretty-print the whole response body. -/
def getNotifications (client : HttpClient) : Except JsError ToolCallResult := do
  let body ← client.getReq "/notifications"
  .ok ⟨[⟨"text", some (.str (jsonStringify body))⟩]⟩

/-- `readNotification` (src/index.js:915): POST
/notifications/{id}/read. -/
def readNotification (client : HttpClient) (notificationId : JsVal) :
    Except JsError ToolCallResult := do
  let _ ← client.postReq ("/notifications/" ++ jsDisplay notificationId ++ "/read") none
  .ok ⟨[⟨"text", some (.str ("Successfully marked notification as read (ID: "
    ++ jsDisplay notificationId ++ ")"))⟩]⟩

/-- `getShop` (src/index.js:928): GET /shops/{shopType} with `shopType`
defaulting to `'market'` when the argument is `undefined`. -/
def getShop (client : HttpClient) (shopTypeArg : JsVal) : Except JsError ToolCallResult := do
  let shopType : JsVal := match shopTypeArg with
    | none => some (.str "market")
    | some v => some v
  let body ← client.getReq ("/shops/" ++ jsDisplay shopType)
  .ok ⟨[⟨"text", some (.str (jsonStringify body))⟩]⟩

/-- `buyItem` (src/index.js:941): POST /user/buy/{itemKey} with
`{ quantity }`, `quantity` defaulting to 1 when the argument is
`undefined`. -/
def buyItem (client : HttpClient) (itemKey : JsVal) (quantityArg : JsVal) :
    Except JsError ToolCallResult := do
  let quantity : JsVal := match quantityArg with
    | none => some (.num 1 0)
    | some v => some v
  let body ← client.postReq ("/user/buy/" ++ jsDisplay itemKey)
    (some (.obj (objField "quantity" quantity)))
  let result ← jsGet (some body) "data"
  let gp ← jsGet result "gp"
  .ok ⟨[⟨"text", some (.str ("Successfully bought " ++ jsDisplay itemKey ++ " x"
    ++ jsDisplay quantity ++ "! Remaining gold: " ++ jsDisplay gp))⟩]⟩

/-- One line of the checklist listing:
```${item.completed ? '✓' : '○'} ${item.text} (ID: ${item.id})``` -/
def checklistItemLine (item : Json) : Except JsError String := do
  let completed ← jsGet (some item) "completed"
  let itemText ← jsGet (some item) "text"
  let itemId ← jsGet (some item) "id"
  .ok ((if truthy completed then "✓" else "○") ++ " " ++ jsDisplay itemText
    ++ " (ID: " ++ jsDisplay itemId ++ ")")

/-- The `checklist.length > 0` test: a JavaScript `>` comparison whose
left side is an array length (a number) or `undefined`. -/
def jsLengthPos : JsVal → Bool
  | some (.num m _) => 0 < m
  | _ => false

/-- `getTaskChecklist` (src/index.js:955): GET /tasks/{taskId}; emit a
header block with the task text and checklist item count, then either
one glyph-marked line per item joined by newlines or the fixed
placeholder when the checklist is empty. -/
def getTaskChecklist (client : HttpClient) (taskId : JsVal) : Except JsError ToolCallResult := do
  let body ← client.getReq ("/tasks/" ++ jsDisplay taskId)
  let task ← jsGet (some body) "data"
  let checklistRaw ← jsGet task "checklist"
  let checklist := jsOr checklistRaw (some (.arr []))
  let taskText ← jsGet task "text"
  let lengthV ← jsGet checklist "length"
  let second ← (if jsLengthPos lengthV then
      match checklist with
      | some (.arr items) => do
          let lines ← mapJs checklistItemLine items
          .ok (String.intercalate "\n" lines)
      | _ => .error ⟨none, "checklist.map is not a function"⟩
    else .ok (t "No checklist items found"))
  .ok ⟨[
    ⟨"text", some (.str (t ("Task: " ++ jsDisplay taskText ++ "\nChecklist items ("
      ++ jsDisplay lengthV ++ "):")))⟩,
    ⟨"text", some (.str second)⟩]⟩

/-- `addChecklistItem` (src/index.js:976): POST /tasks/{taskId}/checklist
with `{ text }`. -/
def addChecklistItem (client : HttpClient) (taskId : JsVal) (text : JsVal) :
    Except JsError ToolCallResult := do
  let body ← client.postReq ("/tasks/" ++ jsDisplay taskId ++ "/checklist")
    (some (.obj (objField "text" text)))
  let item ← jsGet (some body) "data"
  let itemText ← jsGet item "text"
  let itemId ← jsGet item "id"
  .ok ⟨[⟨"text", some (.str (t ("Successfully added checklist item: " ++ jsDisplay itemText
    ++ " (ID: " ++ jsDisplay itemId ++ ")")))⟩]⟩

/-- `updateChecklistItem` (src/index.js:990): PUT
/tasks/{taskId}/checklist/{itemId} with the raw argument object. -/
def updateChecklistItem (client : HttpClient) (taskId : JsVal) (itemId : JsVal)
    (updates : JsVal) : Except JsError ToolCallResult := do
  let body ← client.putReq ("/tasks/" ++ jsDisplay taskId ++ "/checklist/"
    ++ jsDisplay itemId) updates
  let item ← jsGet (some body) "data"
  let itemText ← jsGet item "text"
  .ok ⟨[⟨"text", some (.str (t ("Successfully updated checklist item: "
    ++ jsDisplay itemText)))⟩]⟩

/-- `deleteChecklistItem` (src/index.js:1004): DELETE
/tasks/{taskId}/checklist/{itemId}. -/
def deleteChecklistItem (client : HttpClient) (taskId : JsVal) (itemId : JsVal) :
    Except JsError ToolCallResult := do
  let _ ← client.deleteReq ("/tasks/" ++ jsDisplay taskId ++ "/checklist/" ++ jsDisplay itemId)
  .ok ⟨[⟨"text", some (.str (t ("Successfully deleted checklist item (ID: "
    ++ jsDisplay itemId ++ ")")))⟩]⟩

/-- `scoreChecklistItem` (src/index.js:1017): POST
/tasks/{taskId}/checklist/{itemId}/score. -/
def scoreChecklistItem (client : HttpClient) (taskId : JsVal) (itemId : JsVal) :
    Except JsError ToolCallResult := do
  let body ← client.postReq ("/tasks/" ++ jsDisplay taskId ++ "/checklist/"
    ++ jsDisplay itemId ++ "/score") none
  let item ← jsGet (some body) "data"
  let itemText ← jsGet item "text"
  let itemCompleted ← jsGet item "completed"
  .ok ⟨[⟨"text", some (.str (t ("Successfully scored checklist item: " ++ jsDisplay itemText
    ++ " (completed: " ++ jsDisplay itemCompleted ++ ")")))⟩]⟩

/-- One entry of the tool table (src/index.js:56): name, description and
JSON-Schema input contract. -/
structure ToolDescriptor where
  name : String
  description : String
  inputSchema : Json

/-- The tool table `tools` (src/index.js:56-554), in source order. -/
def tools : List ToolDescriptor := [
  { name := "get_user_profile",
    description := t "Get user profile",
    inputSchema := .obj [("type", .str "object"), ("properties", .obj [])] },
  { name := "get_tasks",
    description := t "Get tasks list",
    inputSchema := .obj [("type", .str "object"),
      ("properties", .obj [
        ("type", .obj [("type", .str "string"),
          ("enum", .arr [.str "habits", .str "dailys", .str "todos", .str "rewards"]),
          ("description", .str (t "Task type"))])])] },
  { name := "create_task",
    description := t "Create new task. For daily tasks, use frequency/everyX/repeat/startDate to set custom schedules",
    inputSchema := .obj [("type", .str "object"),
      ("properties", .obj [
        ("type", .obj [("type", .str "string"),
          ("enum", .arr [.str "habit", .str "daily", .str "todo", .str "reward"]),
          ("description", .str (t "Task type"))]),
        ("text", .obj [("type", .str "string"), ("description", .str (t "Task title"))]),
        ("notes", .obj [("type", .str "string"), ("description", .str (t "Task notes"))]),
        ("difficulty", .obj [("type", .str "number"),
          ("enum", .arr [.num 1 1, .num 1 0, .num 15 1, .num 2 0]),
          ("description", .str (t "Difficulty (0.1=easy, 1=medium, 1.5=hard, 2=very hard)"))]),
        ("priority", .obj [("type", .str "number"),
          ("enum", .arr [.num 1 1, .num 1 0, .num 15 1, .num 2 0]),
          ("description", .str (t "Priority (0.1=low, 1=med, 1.5=high, 2=urgent)"))]),
        ("frequency", .obj [("type", .str "string"),
          ("enum", .arr [.str "daily", .str "weekly", .str "monthly", .str "yearly"]),
          ("description", .str (t "Repeat frequency for daily tasks. \"daily\"=every X days, \"weekly\"=specific days of week, \"monthly\"=by day/week of month, \"yearly\"=annually"))]),
        ("everyX", .obj [("type", .str "integer"), ("minimum", .num 1 0),
          ("description", .str (t "Repeat interval. For frequency=\"daily\": every X days. \"weekly\": every X weeks. \"monthly\": every X months. Default is 1"))]),
        ("repeat", .obj [("type", .str "object"),
          ("properties", .obj [
            ("m", .obj [("type", .str "boolean"), ("description", .str (t "Monday"))]),
            ("t", .obj [("type", .str "boolean"), ("description", .str (t "Tuesday"))]),
            ("w", .obj [("type", .str "boolean"), ("description", .str (t "Wednesday"))]),
            ("th", .obj [("type", .str "boolean"), ("description", .str (t "Thursday"))]),
            ("f", .obj [("type", .str "boolean"), ("description", .str (t "Friday"))]),
            ("s", .obj [("type", .str "boolean"), ("description", .str (t "Saturday"))]),
            ("su", .obj [("type", .str "boolean"), ("description", .str (t "Sunday"))])]),
          ("description", .str (t "Days of week when task is active (for frequency=\"weekly\"). Example: \x7b\"m\":true,\"w\":true,\"f\":true\x7d for Mon/Wed/Fri"))]),
        ("daysOfMonth", .obj [("type", .str "array"),
          ("items", .obj [("type", .str "integer"), ("minimum", .num 1 0), ("maximum", .num 31 0)]),
          ("description", .str (t "Days of month when task is due (for frequency=\"monthly\"). Example: [1,15] for 1st and 15th"))]),
        ("weeksOfMonth", .obj [("type", .str "array"),
          ("items", .obj [("type", .str "integer"), ("minimum", .num 0 0), ("maximum", .num 4 0)]),
          ("description", .str (t "Weeks of month (0=first, 1=second, 2=third, 3=fourth, 4=last) combined with repeat days. Example: [0] with repeat.m=true for 1st Monday"))]),
        ("startDate", .obj [("type", .str "string"),
          ("description", .str (t "Start date in ISO 8601 format (e.g., \"2024-01-15\"). Task becomes active on this date"))]),
        ("checklist", .obj [("type", .str "array"),
          ("items", .obj [("type", .str "object"),
            ("properties", .obj [
              ("text", .obj [("type", .str "string"),
                ("description", .str (t "Checklist item text"))]),
              ("completed", .obj [("type", .str "boolean"),
                ("description", .str (t "Completed status")),
                ("default", .bool false)])]),
            ("required", .arr [.str "text"])]),
          ("description", .str (t "Checklist items"))])]),
      ("required", .arr [.str "type", .str "text"])] },
  { name := "score_task",
    description := t "Score task / habit",
    inputSchema := .obj [("type", .str "object"),
      ("properties", .obj [
        ("taskId", .obj [("type", .str "string"), ("description", .str (t "Task ID"))]),
        ("direction", .obj [("type", .str "string"),
          ("enum", .arr [.str "up", .str "down"]),
          ("description", .str (t "Direction (up=positive, down=negative, habits only)"))])]),
      ("required", .arr [.str "taskId"])] },
  { name := "update_task",
    description := t "Update task properties including schedule. For daily tasks, use frequency/everyX/repeat/startDate to modify repeat schedule",
    inputSchema := .obj [("type", .str "object"),
      ("properties", .obj [
        ("taskId", .obj [("type", .str "string"), ("description", .str (t "Task ID"))]),
        ("text", .obj [("type", .str "string"), ("description", .str (t "Task title"))]),
        ("notes", .obj [("type", .str "string"), ("description", .str (t "Task notes"))]),
        ("completed", .obj [("type", .str "boolean"), ("description", .str (t "Completed flag"))]),
        ("frequency", .obj [("type", .str "string"),
          ("enum", .arr [.str "daily", .str "weekly", .str "monthly", .str "yearly"]),
          ("description", .str (t "Repeat frequency for daily tasks. \"daily\"=every X days, \"weekly\"=specific days of week, \"monthly\"=by day/week of month, \"yearly\"=annually"))]),
        ("everyX", .obj [("type", .str "integer"), ("minimum", .num 1 0),
          ("description", .str (t "Repeat interval. For frequency=\"daily\": every X days. \"weekly\": every X weeks. \"monthly\": every X months"))]),
        ("repeat", .obj [("type", .str "object"),
          ("properties", .obj [
            ("m", .obj [("type", .str "boolean"), ("description", .str (t "Monday"))]),
            ("t", .obj [("type", .str "boolean"), ("description", .str (t "Tuesday"))]),
            ("w", .obj [("type", .str "boolean"), ("description", .str (t "Wednesday"))]),
            ("th", .obj [("type", .str "boolean"), ("description", .str (t "Thursday"))]),
            ("f", .obj [("type", .str "boolean"), ("description", .str (t "Friday"))]),
            ("s", .obj [("type", .str "boolean"), ("description", .str (t "Saturday"))]),
            ("su", .obj [("type", .str "boolean"), ("description", .str (t "Sunday"))])]),
          ("description", .str (t "Days of week when task is active (for frequency=\"weekly\"). Example: \x7b\"m\":true,\"w\":true,\"f\":true\x7d for Mon/Wed/Fri"))]),
        ("daysOfMonth", .obj [("type", .str "array"),
          ("items", .obj [("type", .str "integer"), ("minimum", .num 1 0), ("maximum", .num 31 0)]),
          ("description", .str (t "Days of month when task is due (for frequency=\"monthly\"). Example: [1,15] for 1st and 15th"))]),
        ("weeksOfMonth", .obj [("type", .str "array"),
          ("items", .obj [("type", .str "integer"), ("minimum", .num 0 0), ("maximum", .num 4 0)]),
          ("description", .str (t "Weeks of month (0=first, 1=second, 2=third, 3=fourth, 4=last) combined with repeat days. Example: [0] with repeat.m=true for 1st Monday"))]),
        ("startDate", .obj [("type", .str "string"),
          ("description", .str (t "Start date in ISO 8601 format (e.g., \"2024-01-15\"). Task becomes active on this date"))])]),
      ("required", .arr [.str "taskId"])] },
  { name := "delete_task",
    description := t "Delete task",
    inputSchema := .obj [("type", .str "object"),
      ("properties", .obj [
        ("taskId", .obj [("type", .str "string"), ("description", .str (t "Task ID"))])]),
      ("required", .arr [.str "taskId"])] },
  { name := "get_stats",
    description := t "Get user stats",
    inputSchema := .obj [("type", .str "object"), ("properties", .obj [])] },
  { name := "buy_reward",
    description := t "Buy reward",
    inputSchema := .obj [("type", .str "object"),
      ("properties", .obj [
        ("key", .obj [("type", .str "string"), ("description", .str (t "Reward key or ID"))])]),
      ("required", .arr [.str "key"])] },
  { name := "get_inventory",
    description := t "Get inventory",
    inputSchema := .obj [("type", .str "object"), ("properties", .obj [])] },
  { name := "cast_spell",
    description := t "Cast spell",
    inputSchema := .obj [("type", .str "object"),
      ("properties", .obj [
        ("spellId", .obj [("type", .str "string"), ("description", .str (t "Spell ID"))]),
        ("targetId", .obj [("type", .str "string"), ("description", .str (t "Target ID (optional)"))])]),
      ("required", .arr [.str "spellId"])] },
  { name := "get_tags",
    description := t "Get tags list",
    inputSchema := .obj [("type", .str "object"), ("properties", .obj [])] },
  { name := "create_tag",
    description := t "Create tag",
    inputSchema := .obj [("type", .str "object"),
      ("properties", .obj [
        ("name", .obj [("type", .str "string"), ("description", .str (t "Tag name"))])]),
      ("required", .arr [.str "name"])] },
  { name := "get_pets",
    description := t "Get pets list",
    inputSchema := .obj [("type", .str "object"), ("properties", .obj [])] },
  { name := "feed_pet",
    description := t "Feed pet",
    inputSchema := .obj [("type", .str "object"),
      ("properties", .obj [
        ("pet", .obj [("type", .str "string"), ("description", .str (t "Pet key"))]),
        ("food", .obj [("type", .str "string"), ("description", .str (t "Food key"))])]),
      ("required", .arr [.str "pet", .str "food"])] },
  { name := "hatch_pet",
    description := t "Hatch pet",
    inputSchema := .obj [("type", .str "object"),
      ("properties", .obj [
        ("egg", .obj [("type", .str "string"), ("description", .str (t "Egg key"))]),
        ("hatchingPotion", .obj [("type", .str "string"), ("description", .str (t "Hatching potion key"))])]),
      ("required", .arr [.str "egg", .str "hatchingPotion"])] },
  { name := "get_mounts",
    description := t "Get mounts list",
    inputSchema := .obj [("type", .str "object"), ("properties", .obj [])] },
  { name := "equip_item",
    description := t "Equip item",
    inputSchema := .obj [("type", .str "object"),
      ("properties", .obj [
        ("type", .obj [("type", .str "string"),
          ("enum", .arr [.str "mount", .str "pet", .str "costume", .str "equipped"]),
          ("description", .str (t "Equipment type"))]),
        ("key", .obj [("type", .str "string"), ("description", .str (t "Item key"))])]),
      ("required", .arr [.str "type", .str "key"])] },
  { name := "get_notifications",
    description := t "Get notifications list",
    inputSchema := .obj [("type", .str "object"), ("properties", .obj [])] },
  { name := "read_notification",
    description := t "Mark notification as read",
    inputSchema := .obj [("type", .str "object"),
      ("properties", .obj [
        ("notificationId", .obj [("type", .str "string"), ("description", .str (t "Notification ID"))])]),
      ("required", .arr [.str "notificationId"])] },
  { name := "get_shop",
    description := t "Get shop items",
    inputSchema := .obj [("type", .str "object"),
      ("properties", .obj [
        ("shopType", .obj [("type", .str "string"),
          ("enum", .arr [.str "market", .str "questShop", .str "timeTravelersShop", .str "seasonalShop"]),
          ("description", .str (t "Shop type"))])])] },
  { name := "buy_item",
    description := t "Buy shop item",
    inputSchema := .obj [("type", .str "object"),
      ("properties", .obj [
        ("itemKey", .obj [("type", .str "string"), ("description", .str (t "Item key"))]),
        ("quantity", .obj [("type", .str "number"),
          ("description", .str (t "Purchase quantity")),
          ("default", .num 1 0)])]),
      ("required", .arr [.str "itemKey"])] },
  { name := "add_checklist_item",
    description := t "Add checklist item to task",
    inputSchema := .obj [("type", .str "object"),
      ("properties", .obj [
        ("taskId", .obj [("type", .str "string"), ("description", .str (t "Task ID"))]),
        ("text", .obj [("type", .str "string"), ("description", .str (t "Checklist item text"))])]),
      ("required", .arr [.str "taskId", .str "text"])] },
  { name := "update_checklist_item",
    description := t "Update checklist item",
    inputSchema := .obj [("type", .str "object"),
      ("properties", .obj [
        ("taskId", .obj [("type", .str "string"), ("description", .str (t "Task ID"))]),
        ("itemId", .obj [("type", .str "string"), ("description", .str (t "Checklist item ID"))]),
        ("text", .obj [("type", .str "string"), ("description", .str (t "Checklist item text"))]),
        ("completed", .obj [("type", .str "boolean"), ("description", .str (t "Completed status"))])]),
      ("required", .arr [.str "taskId", .str "itemId"])] },
  { name := "delete_checklist_item",
    description := t "Delete checklist item",
    inputSchema := .obj [("type", .str "object"),
      ("properties", .obj [
        ("taskId", .obj [("type", .str "string"), ("description", .str (t "Task ID"))]),
        ("itemId", .obj [("type", .str "string"), ("description", .str (t "Checklist item ID"))])]),
      ("required", .arr [.str "taskId", .str "itemId"])] },
  { name := "get_task_checklist",
    description := t "Get task checklist items",
    inputSchema := .obj [("type", .str "object"),
      ("properties", .obj [
        ("taskId", .obj [("type", .str "string"), ("description", .str (t "Task ID"))])]),
      ("required", .arr [.str "taskId"])] },
  { name := "score_checklist_item",
    description := t "Score checklist item (mark complete/incomplete)",
    inputSchema := .obj [("type", .str "object"),
      ("properties", .obj [
        ("taskId", .obj [("type", .str "string"), ("description", .str (t "Task ID"))]),
        ("itemId", .obj [("type", .str "string"), ("description", .str (t "Checklist item ID"))])]),
      ("required", .arr [.str "taskId", .str "itemId"])] }]

/-- A value thrown inside the `try` block of the call-tool request
handler: either an `McpError` (the default case of the switch) or an
ordinary JavaScript error propagating out of a handler. -/
inductive DispatchError where
  | mcp (e : McpError)
  | js (e : JsError)

/-- Lifts a handler computation into the dispatcher's error type. -/
def liftJs : Except JsError ToolCallResult → Except DispatchError ToolCallResult
  | .ok r => .ok r
  | .error e => .error (.js e)

/-- The case labels of the `switch (name)` statement in the call-tool
request handler (src/index.js:568-646), transcribed in source order. -/
def switchCaseNames : List String :=
  ["get_user_profile", "get_tasks", "create_task", "score_task", "update_task",
   "delete_task", "get_stats", "buy_reward", "get_inventory", "cast_spell",
   "get_tags", "create_tag", "get_pets", "feed_pet", "hatch_pet",
   "get_mounts", "equip_item", "get_notifications", "read_notification", "get_shop",
   "buy_item", "get_task_checklist", "add_checklist_item", "update_checklist_item",
   "delete_checklist_item", "score_checklist_item"]

/-- The `try` block of the call-tool request handler
(src/index.js:567-649): the `switch (name)` statement, each case
destructuring the needed fields of `args` (which may itself throw) and
invoking the handler, with the default case throwing a MethodNotFound
`McpError` naming the unknown tool. -/
def tryDispatch (client : HttpClient) (name : String) (args : JsVal) :
    Except DispatchError ToolCallResult :=
  match name with
  | "get_user_profile" => liftJs (getUserProfile client)
  | "get_tasks" => liftJs (do
      let type ← jsGet args "type"
      getTasks client type)
  | "create_task" => liftJs (createTask client args)
  | "score_task" => liftJs (do
      let taskId ← jsGet args "taskId"
      let direction ← jsGet args "direction"
      scoreTask client taskId direction)
  | "update_task" => liftJs (do
      let taskId ← jsGet args "taskId"
      updateTask client taskId args)
  | "delete_task" => liftJs (do
      let taskId ← jsGet args "taskId"
      deleteTask client taskId)
  | "get_stats" => liftJs (getStats client)
  | "buy_reward" => liftJs (do
      let key ← jsGet args "key"
      buyReward client key)
  | "get_inventory" => liftJs (getInventory client)
  | "cast_spell" => liftJs (do
      let spellId ← jsGet args "spellId"
      let targetId ← jsGet args "targetId"
      castSpell client spellId targetId)
  | "get_tags" => liftJs (getTags client)
  | "create_tag" => liftJs (do
      let name ← jsGet args "name"
      createTag client name)
  | "get_pets" => liftJs (getPets client)
  | "feed_pet" => liftJs (do
      let pet ← jsGet args "pet"
      let food ← jsGet args "food"
      feedPet client pet food)
  | "hatch_pet" => liftJs (do
      let egg ← jsGet args "egg"
      let hatchingPotion ← jsGet args "hatchingPotion"
      hatchPet client egg hatchingPotion)
  | "get_mounts" => liftJs (getMounts client)
  | "equip_item" => liftJs (do
      let type ← jsGet args "type"
      let key ← jsGet args "key"
      equipItem client type key)
  | "get_notifications" => liftJs (getNotifications client)
  | "read_notification" => liftJs (do
      let notificationId ← jsGet args "notificationId"
      readNotification client notificationId)
  | "get_shop" => liftJs (do
      let shopType ← jsGet args "shopType"
      getShop client shopType)
  | "buy_item" => liftJs (do
      let itemKey ← jsGet args "itemKey"
      let quantity ← jsGet args "quantity"
      buyItem client itemKey quantity)
  | "get_task_checklist" => liftJs (do
      let taskId ← jsGet args "taskId"
      getTaskChecklist client taskId)
  | "add_checklist_item" => liftJs (do
      let taskId ← jsGet args "taskId"
      let text ← jsGet args "text"
      addChecklistItem client taskId text)
  | "update_checklist_item" => liftJs (do
      let taskId ← jsGet args "taskId"
      let itemId ← jsGet args "itemId"
      updateChecklistItem client taskId itemId args)
  | "delete_checklist_item" => liftJs (do
      let taskId ← jsGet args "taskId"
      let itemId ← jsGet args "itemId"
      deleteChecklistItem client taskId itemId)
  | "score_checklist_item" => liftJs (do
      let taskId ← jsGet args "taskId"
      let itemId ← jsGet args "itemId"
      scoreChecklistItem client taskId itemId)
  | _ => .error (.mcp ⟨.methodNotFound, "Unknown tool: " ++ name⟩)

/-- The expression
`error.response?.data?.message || error.message || 'Unknown error'`
(src/index.js:655). -/
def errorMessageOf (e : JsError) : JsVal :=
  jsOr (jsOr (jsOptGet (jsOptGet e.response "data") "message") (some (.str e.message)))
    (some (.str "Unknown error"))

/-- The `catch` block of the call-tool request handler
(src/index.js:650-657): an `McpError` is re-thrown unchanged; any other
error is wrapped into an InternalError whose message is the fixed prefix
followed by the three-tier fallback message. -/
def handleCaught : DispatchError → McpError
  | .mcp e => e
  | .js e => ⟨.internalError, "Habitica API error: " ++ jsDisplay (errorMessageOf e)⟩

/-- The complete call-tool request handler (src/index.js:564-658):
dispatch, then normalize any thrown error. -/
def callToolHandler (client : HttpClient) (name : String) (args : JsVal) :
    Except McpError ToolCallResult :=
  match tryDispatch client name args with
  | .ok r => .ok r
  | .error e => .error (handleCaught e)

/-- A mocked remote endpoint answering every request with the same
successful JSON body. -/
def mockClient (body : Json) : HttpClient := ⟨fun _ => .ok body⟩

/-- A mocked remote endpoint failing every request with the same error. -/
def mockErrorClient (e : JsError) : HttpClient := ⟨fun _ => .error e⟩

/-- JavaScript truthiness of an environment-variable value
(`undefined` or the empty string are falsy). -/
def envTruthy : Option String → Bool
  | none => false
  | some s => s != ""

/-- `a || b` on environment-variable values (strings or `undefined`). -/
def envOr (a b : Option String) : Option String := if envTruthy a then a else b

/-- The fixed API base (src/index.js:17). -/
def HABITICA_API_BASE : String := "https://habitica.com/api/v3"

/-- The language stored by the `setLanguage` call at startup
(src/index.js:24): `process.env.MCP_LANG || process.env.LANG || 'en'`,
lower-cased by `setLanguage`. -/
def startupLanguage (env : String → Option String) : String :=
  setLanguage (((envOr (envOr (env "MCP_LANG") (env "LANG")) (some "en")).getD ""))

/-- The axios client configuration built by `axios.create`
(src/index.js:32-40). -/
structure AxiosConfig where
  baseURL : String
  headers : List (String × String)

/-- The observable result of running the module top level up to server
start: either the process exited (with its code and the diagnostic
printed to stderr) or it is running with a constructed HTTP client. -/
inductive StartupOutcome where
  | exited (code : Nat) (diagnostic : String)
  | running (client : AxiosConfig)

/-- The module top level of src/index.js in source order (lines 17-40):
read the two credentials, set the language, exit with code 1 and a
diagnostic if either credential is missing or empty, and only otherwise
construct the pre-configured axios client. -/
def startup (env : String → Option String) : StartupOutcome :=
  let habiticaUserId := env "HABITICA_USER_ID"
  let habiticaApiToken := env "HABITICA_API_TOKEN"
  let _lang := startupLanguage env
  if !envTruthy habiticaUserId || !envTruthy habiticaApiToken then
    .exited 1 (t "Error: Please set HABITICA_USER_ID and HABITICA_API_TOKEN environment variables")
  else
    .running
      { baseURL := HABITICA_API_BASE,
        headers := [
          ("x-api-user", habiticaUserId.getD ""),
          ("x-api-key", habiticaApiToken.getD ""),
          ("x-client", habiticaUserId.getD "" ++ "-MCP-Server"),
          ("Content-Type", "application/json")] }

/-- Substring containment of `pat` in `s`, stated on the underlying
character lists. -/
def strContains (s pat : String) : Prop := pat.data <:+: s.data

instance (s pat : String) : Decidable (strContains s pat) :=
  List.decidableInfix pat.data s.data

/-- The string produced by the per-item arrow function inside
`getTaskChecklist`, expressed on the item's field list:
```${item.completed ? '✓' : '○'} ${item.text} (ID: ${item.id})``` -/
def checklistLineOfFields (f : List (String × Json)) : String :=
  (if truthy (lookupField f "completed") then "✓" else "○") ++ " "
    ++ jsDisplay (lookupField f "text") ++ " (ID: " ++ jsDisplay (lookupField f "id") ++ ")"

theorem except_ok_bind {ε α β : Type} (x : α) (f : α → Except ε β) :
    (Except.ok x : Except ε α) >>= f = f x := rfl

theorem jsOr_pos {a b : JsVal} (h : truthy a = true) : jsOr a b = a := by
  unfold jsOr
  rw [h]
  simp

theorem jsOr_neg {a b : JsVal} (h : truthy a = false) : jsOr a b = b := by
  unfold jsOr
  rw [h]
  simp

theorem mapJs_checklistItemLine (fs : List (List (String × Json))) :
    mapJs checklistItemLine (fs.map Json.obj) = .ok (fs.map checklistLineOfFields) := by
  induction fs with
  | nil => rfl
  | cons f fs ih =>
    simp only [List.map_cons, mapJs, checklistItemLine, jsGet, jsOptGet, ih]
    rfl

theorem scoreTask_up_path (tid : JsVal) :
    ("/tasks/" ++ jsDisplay tid ++ "/score/" ++ jsDisplay (some (Json.str "up"))) =
      ("/tasks/" ++ jsDisplay tid ++ "/score/up") := by
  rw [String.append_assoc]
  rfl

/-- C1: the claim as stated is false on the code: against a mocked remote
error carrying `{response:{data:{message:"X"}}}`, the internal error
message is `"Habitica API error: X"`, which is not equal to `"X"`. -/
theorem c1_message_not_equal_counterexample :
    callToolHandler
      (mockErrorClient ⟨some (.obj [("data", .obj [("message", .str "X")])]),
        "Request failed with status code 404"⟩)
      "get_tags" none =
      .error ⟨.internalError, "Habitica API error: X"⟩ ∧
    ("Habitica API error: X" : String) ≠ "X" :=
  ⟨rfl, by decide⟩

/-- C1 (amended): when a handler throws a non-MCP failure, the dispatcher
raises an internal error whose message is the fixed prefix
`"Habitica API error: "` followed by the text chosen by priority: the
message field nested in the remote response body when truthy, otherwise
the generic failure message when non-empty, otherwise the fixed fallback
`"Unknown error"`. -/
theorem c1_internal_error_message_priority (client : HttpClient) (name : String)
    (args : JsVal) (e : JsError)
    (h : tryDispatch client name args = .error (.js e)) :
    callToolHandler client name args =
      .error ⟨.internalError, "Habitica API error: " ++ jsDisplay (errorMessageOf e)⟩ ∧
    (truthy (jsOptGet (jsOptGet e.response "data") "message") = true →
      errorMessageOf e = jsOptGet (jsOptGet e.response "data") "message") ∧
    (truthy (jsOptGet (jsOptGet e.response "data") "message") = false →
      e.message ≠ "" → errorMessageOf e = some (.str e.message)) ∧
    (truthy (jsOptGet (jsOptGet e.response "data") "message") = false →
      e.message = "" → errorMessageOf e = some (.str "Unknown error")) := by
  refine ⟨?_, ?_, ?_, ?_⟩
  · unfold callToolHandler
    rw [h]
    rfl
  · intro ht
    unfold errorMessageOf
    rw [jsOr_pos ht, jsOr_pos ht]
  · intro ht hm
    have hb : truthy (some (.str e.message)) = true := by simp [truthy, hm]
    unfold errorMessageOf
    rw [jsOr_neg ht, jsOr_pos hb]
  · intro ht hm
    have hb : truthy (some (.str e.message)) = false := by simp [truthy, hm]
    unfold errorMessageOf
    rw [jsOr_neg ht, jsOr_neg hb]

/-- C1 (witness): the amended wrapping theorem applied to a mocked remote
error whose response body carries `message: "X"`. -/
theorem c1_internal_error_message_priority_witness :
    callToolHandler
      (mockErrorClient ⟨some (.obj [("data", .obj [("message", .str "X")])]),
        "Request failed with status code 404"⟩)
      "get_tags" none =
      .error ⟨.internalError, "Habitica API error: X"⟩ :=
  (c1_internal_error_message_priority
    (mockErrorClient ⟨some (.obj [("data", .obj [("message", .str "X")])]),
      "Request failed with status code 404"⟩)
    "get_tags" none
    ⟨some (.obj [("data", .obj [("message", .str "X")])]),
      "Request failed with status code 404"⟩ rfl).1

/-- C2: the registry names and the dispatcher's switch case labels are in
bijection: the two name lists are permutations of each other and free of
duplicates, so every registry name has exactly one switch case and every
switch case names exactly one registry entry. -/
theorem c2_registry_dispatch_bijection :
    (tools.map ToolDescriptor.name).Perm switchCaseNames ∧
    (tools.map ToolDescriptor.name).Nodup ∧ switchCaseNames.Nodup := by
  refine ⟨?_, ?_, ?_⟩ <;> decide

/-- C3: invoking any name outside the dispatcher's case list fails with a
MethodNotFound error whose message contains the offending name, and never
with an internal error. -/
theorem c3_unknown_tool_method_not_found (client : HttpClient) (name : String)
    (args : JsVal) (h : name ∉ switchCaseNames) :
    callToolHandler client name args = .error ⟨.methodNotFound, "Unknown tool: " ++ name⟩ ∧
    (∀ msg, callToolHandler client name args ≠ .error ⟨.internalError, msg⟩) ∧
    strContains ("Unknown tool: " ++ name) name := by
  simp only [switchCaseNames, List.mem_cons, List.not_mem_nil, or_false, not_or] at h
  obtain ⟨h1, h2, h3, h4, h5, h6, h7, h8, h9, h10, h11, h12, h13, h14, h15, h16, h17,
    h18, h19, h20, h21, h22, h23, h24, h25, h26⟩ := h
  have htry : tryDispatch client name args =
      .error (.mcp ⟨.methodNotFound, "Unknown tool: " ++ name⟩) := by
    unfold tryDispatch
    split <;> simp_all
  have hd : callToolHandler client name args =
      .error ⟨.methodNotFound, "Unknown tool: " ++ name⟩ := by
    unfold callToolHandler
    rw [htry]
    rfl
  refine ⟨hd, ?_, ?_⟩
  · intro msg hcontra
    rw [hd] at hcontra
    simp at hcontra
  · show name.data <:+: ("Unknown tool: " ++ name).data
    rw [String.data_append]
    exact (List.suffix_append _ _).isInfix

/-- C3 (witness): invoking the unregistered name `does_not_exist` yields
the MethodNotFound error carrying the name. -/
theorem c3_unknown_tool_method_not_found_witness :
    callToolHandler (mockClient .null) "does_not_exist" none =
      .error ⟨.methodNotFound, "Unknown tool: " ++ "does_not_exist"⟩ :=
  (c3_unknown_tool_method_not_found (mockClient .null) "does_not_exist" none (by decide)).1

/-- C4: when the try block throws an already-standardized MCP error, the
catch block re-raises exactly that error object, with no second wrapping
into the internal-error kind. -/
theorem c4_mcp_error_rethrown_unchanged (client : HttpClient) (name : String)
    (args : JsVal) (e : McpError)
    (h : tryDispatch client name args = .error (.mcp e)) :
    callToolHandler client name args = .error e := by
  unfold callToolHandler
  rw [h]
  rfl

/-- C4 (witness): the MethodNotFound error thrown by the default switch
case passes through the catch block unchanged. -/
theorem c4_mcp_error_rethrown_unchanged_witness :
    callToolHandler (mockClient .null) "nope" none =
      .error ⟨.methodNotFound, "Unknown tool: nope"⟩ :=
  c4_mcp_error_rethrown_unchanged (mockClient .null) "nope" none
    ⟨.methodNotFound, "Unknown tool: nope"⟩ rfl

/-- C5: a get_task_checklist invocation yields exactly two text blocks: a
header with the task title and the checklist item count, then either one
glyph-marked line per item (✓ when completed, ○ otherwise, with the item
text and ID) joined by newlines, or the fixed `No checklist items found`
placeholder when the checklist is empty or absent. -/
theorem c5_checklist_two_blocks (client : HttpClient) (tidJ : Json)
    (taskFields : List (String × Json)) (items : List (List (String × Json)))
    (hc : ∀ r, client.send r = .ok (.obj [("data", .obj taskFields)])) :
    (lookupField taskFields "checklist" = some (.arr (items.map Json.obj)) →
      callToolHandler client "get_task_checklist" (some (.obj [("taskId", tidJ)])) = .ok ⟨[
        ⟨"text", some (.str ("Task: " ++ jsDisplay (lookupField taskFields "text")
          ++ "\nChecklist items (" ++ toString (items.length : Int) ++ "):"))⟩,
        ⟨"text", some (.str (if 0 < items.length
            then String.intercalate "\n" (items.map checklistLineOfFields)
            else "No checklist items found"))⟩]⟩) ∧
    (lookupField taskFields "checklist" = none →
      callToolHandler client "get_task_checklist" (some (.obj [("taskId", tidJ)])) = .ok ⟨[
        ⟨"text", some (.str ("Task: " ++ jsDisplay (lookupField taskFields "text")
          ++ "\nChecklist items (0):"))⟩,
        ⟨"text", some (.str "No checklist items found")⟩]⟩) := by
  have hstep : callToolHandler client "get_task_checklist" (some (.obj [("taskId", tidJ)])) =
      (match liftJs (getTaskChecklist client (some tidJ)) with
        | .ok r => .ok r
        | .error e => .error (handleCaught e)) := rfl
  constructor
  · intro hcl
    have hmain : getTaskChecklist client (some tidJ) = .ok ⟨[
        ⟨"text", some (.str ("Task: " ++ jsDisplay (lookupField taskFields "text")
          ++ "\nChecklist items (" ++ toString (items.length : Int) ++ "):"))⟩,
        ⟨"text", some (.str (if 0 < items.length
            then String.intercalate "\n" (items.map checklistLineOfFields)
            else "No checklist items found"))⟩]⟩ := by
      have hcl2 : Option.map (fun p => p.2) (List.find? (fun p => p.1 == "checklist") taskFields) =
          some (Json.arr (items.map Json.obj)) := by
        simpa [lookupField] using hcl
      simp [getTaskChecklist, HttpClient.getReq, hc, except_ok_bind, jsGet, jsOptGet,
        lookupField, hcl2, mapJs_checklistItemLine, jsOr, truthy, jsLengthPos,
        jsDisplay, jsDisplayJson, numToString, t, List.length_map, Int.natCast_pos]
      by_cases hl : 0 < items.length <;> simp [hl, except_ok_bind]
    rw [hstep, hmain]
    rfl
  · intro hcl
    have hmain : getTaskChecklist client (some tidJ) = .ok ⟨[
        ⟨"text", some (.str ("Task: " ++ jsDisplay (lookupField taskFields "text")
          ++ "\nChecklist items (0):"))⟩,
        ⟨"text", some (.str "No checklist items found")⟩]⟩ := by
      have hcl2 : Option.map (fun p => p.2) (List.find? (fun p => p.1 == "checklist") taskFields) =
          none := by
        simpa [lookupField] using hcl
      simp [getTaskChecklist, HttpClient.getReq, hc, except_ok_bind, jsGet, jsOptGet,
        lookupField, hcl2, jsOr, truthy, jsLengthPos,
        jsDisplay, jsDisplayJson, numToString, t]
      rw [String.append_assoc, String.append_assoc]
      rfl
    rw [hstep, hmain]
    rfl

/-- C5 (witness): the checklist-listing theorem applied to a mocked task
with two checklist items, and to a mocked task without a checklist
field. -/
theorem c5_checklist_two_blocks_witness :
    callToolHandler (mockClient (.obj [("data", .obj [("text", .str "My task"),
        ("checklist", .arr [
          .obj [("completed", .bool true), ("text", .str "step one"), ("id", .str "c1")],
          .obj [("completed", .bool false), ("text", .str "step two"), ("id", .str "c2")]])])]))
      "get_task_checklist" (some (.obj [("taskId", .str "t1")])) = .ok ⟨[
        ⟨"text", some (.str "Task: My task\nChecklist items (2):")⟩,
        ⟨"text", some (.str "✓ step one (ID: c1)\n○ step two (ID: c2)")⟩]⟩ ∧
    callToolHandler (mockClient (.obj [("data", .obj [("text", .str "Bare task")])]))
      "get_task_checklist" (some (.obj [("taskId", .str "t2")])) = .ok ⟨[
        ⟨"text", some (.str "Task: Bare task\nChecklist items (0):")⟩,
        ⟨"text", some (.str "No checklist items found")⟩]⟩ :=
  ⟨(c5_checklist_two_blocks (mockClient (.obj [("data", .obj [("text", .str "My task"),
        ("checklist", .arr [
          .obj [("completed", .bool true), ("text", .str "step one"), ("id", .str "c1")],
          .obj [("completed", .bool false), ("text", .str "step two"), ("id", .str "c2")]])])]))
      (.str "t1")
      [("text", .str "My task"),
        ("checklist", .arr [
          .obj [("completed", .bool true), ("text", .str "step one"), ("id", .str "c1")],
          .obj [("completed", .bool false), ("text", .str "step two"), ("id", .str "c2")]])]
      [[("completed", .bool true), ("text", .str "step one"), ("id", .str "c1")],
       [("completed", .bool false), ("text", .str "step two"), ("id", .str "c2")]]
      (fun _ => rfl)).1 rfl,
   (c5_checklist_two_blocks (mockClient (.obj [("data", .obj [("text", .str "Bare task")])]))
      (.str "t2") [("text", .str "Bare task")] [] (fun _ => rfl)).2 rfl⟩

/-- C6: a score_task invocation whose mocked success response carries
`{exp:10, gp:2, lvl:5}` yields one text block with the documented
confirmation phrasing containing all three values. -/
theorem c6_score_task_confirmation (client : HttpClient) (tidJ : Json)
    (hc : ∀ r, client.send r = .ok (.obj [("data",
      .obj [("exp", .num 10 0), ("gp", .num 2 0), ("lvl", .num 5 0)])])) :
    callToolHandler client "score_task" (some (.obj [("taskId", tidJ)])) =
      .ok ⟨[⟨"text",
        some (.str "Task completed! Gained 10 XP Gained 2 gold Leveled up to 5! ")⟩]⟩ ∧
    strContains "Task completed! Gained 10 XP Gained 2 gold Leveled up to 5! " "10" ∧
    strContains "Task completed! Gained 10 XP Gained 2 gold Leveled up to 5! " "2" ∧
    strContains "Task completed! Gained 10 XP Gained 2 gold Leveled up to 5! " "5" := by
  refine ⟨?_, by decide, by decide, by decide⟩
  have h2 : scoreTask client (some tidJ) none =
      .ok ⟨[⟨"text",
        some (.str "Task completed! Gained 10 XP Gained 2 gold Leveled up to 5! ")⟩]⟩ := by
    simp only [scoreTask, HttpClient.postReq, hc]
    rfl
  have h3 : tryDispatch client "score_task" (some (.obj [("taskId", tidJ)])) =
      liftJs (scoreTask client (some tidJ) none) := rfl
  unfold callToolHandler
  rw [h3, h2]
  rfl

/-- C6 (witness): the confirmation theorem applied to a mocked client. -/
theorem c6_score_task_confirmation_witness :
    callToolHandler (mockClient (.obj [("data",
        .obj [("exp", .num 10 0), ("gp", .num 2 0), ("lvl", .num 5 0)])]))
      "score_task" (some (.obj [("taskId", .str "task-1")])) =
      .ok ⟨[⟨"text",
        some (.str "Task completed! Gained 10 XP Gained 2 gold Leveled up to 5! ")⟩]⟩ :=
  (c6_score_task_confirmation (mockClient (.obj [("data",
      .obj [("exp", .num 10 0), ("gp", .num 2 0), ("lvl", .num 5 0)])]))
    (.str "task-1") (fun _ => rfl)).1

/-- C7: a get_tags invocation returns one text block holding the
pretty-printed serialization of the full remote response body; for the
body `{"data":[{"id":"t1","name":"Health"}]}` the text contains `t1` and
`Health` verbatim. -/
theorem c7_get_tags_pretty_printed (client : HttpClient) (args : JsVal) (body : Json)
    (hc : ∀ r, client.send r = .ok body) :
    callToolHandler client "get_tags" args = .ok ⟨[⟨"text", some (.str (jsonStringify body))⟩]⟩ ∧
    strContains (jsonStringify (.obj [("data",
      .arr [.obj [("id", .str "t1"), ("name", .str "Health")]])])) "t1" ∧
    strContains (jsonStringify (.obj [("data",
      .arr [.obj [("id", .str "t1"), ("name", .str "Health")]])])) "Health" := by
  refine ⟨?_, by decide, by decide⟩
  unfold callToolHandler tryDispatch liftJs getTags HttpClient.getReq
  rw [hc]
  rfl

/-- C7 (witness): the pretty-printing theorem applied to the mocked
`/tags` body from the specification. -/
theorem c7_get_tags_pretty_printed_witness :
    callToolHandler (mockClient (.obj [("data",
        .arr [.obj [("id", .str "t1"), ("name", .str "Health")]])])) "get_tags" none =
      .ok ⟨[⟨"text", some (.str (jsonStringify (.obj [("data",
        .arr [.obj [("id", .str "t1"), ("name", .str "Health")]])])))⟩]⟩ :=
  (c7_get_tags_pretty_printed (mockClient (.obj [("data",
      .arr [.obj [("id", .str "t1"), ("name", .str "Health")]])])) none
    (.obj [("data", .arr [.obj [("id", .str "t1"), ("name", .str "Health")]])])
    (fun _ => rfl)).1

/-- C8: when either required credential variable is unset or empty, the
module top level prints the diagnostic and exits with code 1, and never
reaches the construction of the axios client. -/
theorem c8_startup_env_guard (env : String → Option String)
    (h : envTruthy (env "HABITICA_USER_ID") = false ∨
      envTruthy (env "HABITICA_API_TOKEN") = false) :
    startup env = .exited 1
      "Error: Please set HABITICA_USER_ID and HABITICA_API_TOKEN environment variables" ∧
    (∀ cfg, startup env ≠ .running cfg) ∧ (1 : Nat) ≠ 0 := by
  have hs : startup env = .exited 1
      "Error: Please set HABITICA_USER_ID and HABITICA_API_TOKEN environment variables" := by
    unfold startup
    rcases h with h | h <;> simp [h, t]
  refine ⟨hs, ?_, by decide⟩
  intro cfg hcontra
  rw [hs] at hcontra
  simp at hcontra

/-- C8 (witness): the guard theorem applied to an empty environment. -/
theorem c8_startup_env_guard_witness :
    startup (fun _ => none) = .exited 1
      "Error: Please set HABITICA_USER_ID and HABITICA_API_TOKEN environment variables" :=
  (c8_startup_env_guard (fun _ => none) (Or.inl rfl)).1

/-- C9: when the direction argument is absent, score_task behaves exactly
as with direction `"up"`, its outcome depends on the remote only through
the request to `/tasks/{taskId}/score/up`, and the score_task input
schema declares no default for the direction property. -/
theorem c9_score_direction_default_up :
    (∀ (c : HttpClient) (tid : JsVal), scoreTask c tid none = scoreTask c tid (some (.str "up"))) ∧
    (∀ (c₁ c₂ : HttpClient) (tid : JsVal),
      c₁.send ⟨.post, "/tasks/" ++ jsDisplay tid ++ "/score/up", none⟩ =
        c₂.send ⟨.post, "/tasks/" ++ jsDisplay tid ++ "/score/up", none⟩ →
      scoreTask c₁ tid none = scoreTask c₂ tid none) ∧
    (∀ (c : HttpClient) (tidJ : Json),
      callToolHandler c "score_task" (some (.obj [("taskId", tidJ)])) =
        callToolHandler c "score_task" (some (.obj [("taskId", tidJ), ("direction", .str "up")]))) ∧
    ((tools.find? (fun d => d.name == "score_task")).map
      (fun d => jsOptGet (jsOptGet (jsOptGet (some d.inputSchema) "properties") "direction")
        "default") = some none) := by
  have h1 : ∀ (c : HttpClient) (tid : JsVal),
      scoreTask c tid none = scoreTask c tid (some (.str "up")) := fun c tid => rfl
  refine ⟨h1, ?_, ?_, ?_⟩
  · intro c₁ c₂ tid h
    simp only [scoreTask, HttpClient.postReq]
    rw [scoreTask_up_path tid, h]
  · intro c tidJ
    have hstep1 : tryDispatch c "score_task" (some (.obj [("taskId", tidJ)])) =
        liftJs (scoreTask c (some tidJ) none) := rfl
    have hstep2 : tryDispatch c "score_task"
        (some (.obj [("taskId", tidJ), ("direction", .str "up")])) =
        liftJs (scoreTask c (some tidJ) (some (.str "up"))) := rfl
    unfold callToolHandler
    rw [hstep1, hstep2, h1 c (some tidJ)]
  · rfl

/-- C9 (witness): the default-direction theorem applied to concrete
clients and a concrete task id. -/
theorem c9_score_direction_default_up_witness :
    scoreTask (mockClient .null) (some (.str "t1")) none =
      scoreTask (mockClient .null) (some (.str "t1")) (some (.str "up")) ∧
    scoreTask (mockClient .null) (some (.str "t1")) none =
      scoreTask ⟨fun _ => .ok .null⟩ (some (.str "t1")) none :=
  ⟨c9_score_direction_default_up.1 (mockClient .null) (some (.str "t1")),
   c9_score_direction_default_up.2.1 (mockClient .null) ⟨fun _ => .ok .null⟩
     (some (.str "t1")) rfl⟩

/-- C10: each of the exp, gp and lvl response fields contributes its
phrase to the score_task confirmation only when truthy; with a falsy exp
(0 or absent) the message consists of the base string followed only by
the gp and lvl phrases, and in particular `{exp:0, gp:2, lvl:5}` yields a
message containing no `XP` fragment. -/
theorem c10_falsy_fields_omitted (c : HttpClient) (tid dirArg : JsVal)
    (fields : List (String × Json))
    (hc : ∀ r, c.send r = .ok (.obj [("data", .obj fields)]))
    (hexp : truthy (lookupField fields "exp") = false) :
    scoreTask c tid dirArg = .ok ⟨[⟨"text", some (.str ("Task completed! "
      ++ (if truthy (lookupField fields "gp") then
            "Gained " ++ jsDisplay (lookupField fields "gp") ++ " gold " else "")
      ++ (if truthy (lookupField fields "lvl") then
            "Leveled up to " ++ jsDisplay (lookupField fields "lvl") ++ "! " else "")))⟩]⟩ ∧
    scoreTask (mockClient (.obj [("data",
        .obj [("exp", .num 0 0), ("gp", .num 2 0), ("lvl", .num 5 0)])]))
      (some (.str "task-1")) none =
      .ok ⟨[⟨"text", some (.str "Task completed! Gained 2 gold Leveled up to 5! ")⟩]⟩ ∧
    ¬ strContains "Task completed! Gained 2 gold Leveled up to 5! " "XP" := by
  refine ⟨?_, rfl, by decide⟩
  have hexp2 : truthy (Option.map (fun p => p.2) (List.find? (fun p => p.1 == "exp") fields)) =
      false := by simpa [lookupField] using hexp
  simp [scoreTask, HttpClient.postReq, hc, except_ok_bind, jsGet, jsOptGet, hexp2,
    lookupField]
  by_cases hgp : truthy (Option.map (fun p => p.2) (List.find? (fun p => p.1 == "gp") fields)) <;>
    by_cases hlvl : truthy (Option.map (fun p => p.2)
      (List.find? (fun p => p.1 == "lvl") fields)) <;>
    simp [hgp, hlvl, String.append_assoc, String.append_empty] <;>
    rfl

/-- C10 (witness): the omission theorem applied to a mocked response with
`exp` equal to 0. -/
theorem c10_falsy_fields_omitted_witness :
    scoreTask (mockClient (.obj [("data",
        .obj [("exp", .num 0 0), ("gp", .num 2 0), ("lvl", .num 5 0)])]))
      (some (.str "task-9")) none =
      .ok ⟨[⟨"text", some (.str "Task completed! Gained 2 gold Leveled up to 5! ")⟩]⟩ :=
  (c10_falsy_fields_omitted (mockClient (.obj [("data",
      .obj [("exp", .num 0 0), ("gp", .num 2 0), ("lvl", .num 5 0)])]))
    (some (.str "task-9")) none
    [("exp", .num 0 0), ("gp", .num 2 0), ("lvl", .num 5 0)]
    (fun _ => rfl) rfl).1

end HabiticaMcp
